/-
Verification of the traffic-light classification and login logic of the
wingedflyer web2py application (applications/wingedflyer/models/db.py and
controllers/{responsible,b2c,mfi}.py), as a shallow embedding in Lean 4.

Modelling conventions:
* A participant's payment rows are given as a list ordered by due date
  descending (most recent first); the web2py select with
  `orderby=~due_date, limitby=(0, 6)` becomes `List.take 6`.
* A participant's communication rows are likewise ordered by
  communication date descending; the predicate
  `communication_date >= ninety_days_ago` is precomputed into the boolean
  field `in_last_90_days` of each row.
* Nullable database fields become `Option`.
* Python 3 raises `TypeError` when `None <= 0` is evaluated; a function
  that can hit such a comparison returns `Option _`, with `none` meaning
  the exception. Python's true division on counts is modelled in `ℚ`.
-/
import Mathlib

/-- A `b2c_payment` row (the fields the scoring reads). `days_late` is a
nullable integer column. -/
structure PaymentRow where
  days_late : Option Int
deriving Repr, DecidableEq

/-- A `b2c_communication` row (the fields the scoring reads).
`in_last_90_days` records whether `communication_date >= ninety_days_ago`. -/
structure CommRow where
  initiated_by : String
  response_time_hours : Option Int
  is_proactive : Bool
  in_last_90_days : Bool
deriving Repr, DecidableEq

/-- Python's `sum(1 for p in payments if p.days_late <= 0)`: in Python 3 the
comparison `None <= 0` raises `TypeError`, so the count is `none` as soon
as one examined row has a null `days_late`. -/
def onTimeCount (payments : List PaymentRow) : Option Nat :=
  if payments.all (fun p => p.days_late.isSome) then
    some (payments.countP (fun p => p.days_late.getD 0 ≤ 0))
  else
    none

/-- Python's `delays = [p.days_late for p in payments if p.days_late is not None]`. -/
def delaysOf (payments : List PaymentRow) : List Int :=
  payments.filterMap (fun p => p.days_late)

/-- Python's `avg_delay = sum(delays) / len(delays)` in exact arithmetic. -/
def avgDelay (delays : List Int) : ℚ :=
  (delays.sum : ℚ) / (delays.length : ℚ)

/-- Python's `variance = sum((d - avg_delay) ** 2 for d in delays) / len(delays)`. -/
def delayVariance (delays : List Int) : ℚ :=
  ((delays.map (fun d => ((d : ℚ) - avgDelay delays) ^ 2)).sum) /
    (delays.length : ℚ)

/-- The `is_consistent_pattern` flag of `calculate_payment_score`: only
computed when at least 4 payments were selected, over the non-null
`days_late` values, true when the variance is below 4. -/
def isConsistentPattern (payments : List PaymentRow) : Bool :=
  if 4 ≤ payments.length then
    let delays := delaysOf payments
    if delays.isEmpty then false else decide (delayVariance delays < 4)
  else false

/-- Function `calculate_payment_score` (db.py lines 329-367) on the participant's
payment rows, most recent first.  `none` models the `TypeError` raised by
`p.days_late <= 0` on a null `days_late`. -/
def calculate_payment_score (rows : List PaymentRow) : Option Nat :=
  let payments := rows.take 6
  if payments.length < 3 then
    some 1
  else
    match onTimeCount payments with
    | none => none
    | some on_time_count =>
      let is_consistent_pattern := isConsistentPattern payments
      some (if 5 ≤ on_time_count ∨ (4 ≤ on_time_count ∧ is_consistent_pattern)
            then 3
            else if 4 ≤ on_time_count then 2
            else if 2 ≤ on_time_count ∨ is_consistent_pattern then 1
            else 0)

/-- The rows `calculate_communication_score` selects: the last 5
MFI-initiated communications. -/
def mfiComms (rows : List CommRow) : List CommRow :=
  (rows.filter (fun c => c.initiated_by = "MFI")).take 5

/-- Count `responses_within_48h`: rows with a non-null `response_time_hours`
that is at most 48. -/
def within48Count (comms : List CommRow) : Nat :=
  comms.countP (fun c =>
    match c.response_time_hours with
    | some t => decide (t ≤ 48)
    | none => false)

/-- Function `calculate_communication_score` (db.py lines 370-400) on the
participant's communication rows, most recent first. -/
def calculate_communication_score (rows : List CommRow) : Nat :=
  let comms := mfiComms rows
  if comms.length = 0 then
    1
  else
    let response_rate : ℚ := (within48Count comms : ℚ) / (comms.length : ℚ)
    if (8 : ℚ) / 10 ≤ response_rate then 2
    else if (1 : ℚ) / 2 ≤ response_rate then 1
    else 0

/-- Count `proactive_comms`: rows flagged proactive inside the trailing 90
days.  Note: the query has no `initiated_by` filter. -/
def proactiveCount90 (rows : List CommRow) : Nat :=
  rows.countP (fun c => c.is_proactive && c.in_last_90_days)

/-- Count `recent_comms`: borrower-initiated rows inside the trailing 90 days. -/
def borrowerCount90 (rows : List CommRow) : Nat :=
  rows.countP (fun c => decide (c.initiated_by = "BORROWER") && c.in_last_90_days)

/-- Function `calculate_proactivity_score` (db.py lines 403-434) on the
participant's communication rows. -/
def calculate_proactivity_score (rows : List CommRow) : Nat :=
  let proactive_comms := proactiveCount90 rows
  if 2 ≤ proactive_comms then 2
  else if 1 ≤ proactive_comms then 1
  else
    let recent_comms := borrowerCount90 rows
    if 2 ≤ recent_comms then 1 else 0

/-- The breakdown dictionary returned by `calculate_traffic_light_status`. -/
structure Breakdown where
  payment : Nat
  communication : Nat
  proactivity : Nat
  total : Nat
deriving Repr, DecidableEq

/-- Function `calculate_traffic_light_status` (db.py lines 437-463): combines the
three sub-scores; `none` propagates the `TypeError` of the payment score. -/
def calculate_traffic_light_status (pays : List PaymentRow)
    (comms : List CommRow) : Option (String × Nat × Breakdown) :=
  match calculate_payment_score pays with
  | none => none
  | some payment_score =>
    let communication_score := calculate_communication_score comms
    let proactivity_score := calculate_proactivity_score comms
    let total_score := payment_score + communication_score + proactivity_score
    let status :=
      if 6 ≤ total_score then "GREEN"
      else if 4 ≤ total_score then "YELLOW"
      else "RED"
    some (status, total_score,
      ⟨payment_score, communication_score, proactivity_score, total_score⟩)

/-- A `b2c` borrower record (the fields the status update touches). -/
structure BorrowerRec where
  traffic_light_status : String
  visibility_score : Nat
  status_notes : Option String
deriving Repr, DecidableEq

/-- The `"Score breakdown: ..."` note body built by
`update_borrower_traffic_light`. -/
def scoreBreakdownNote (bd : Breakdown) : String :=
  "Score breakdown: Payment=" ++ toString bd.payment ++
    ", Communication=" ++ toString bd.communication ++
    ", Proactivity=" ++ toString bd.proactivity ++
    " (Total: " ++ toString bd.total ++ "/7)"

/-- The `status_note` after the optional caller `notes` were appended
(`if notes: status_note += " | " + notes`). -/
def baseStatusNote (bd : Breakdown) (notes : Option String) : String :=
  match notes with
  | some n => scoreBreakdownNote bd ++ " | " ++ n
  | none => scoreBreakdownNote bd

/-- Function `update_borrower_traffic_light` (db.py lines 466-497).  The database
lookup `db.b2c(b2c_id)` is the `Option BorrowerRec` argument; the result
pairs the Python return tuple with the updated borrower row, and the
outer `Option` models the `TypeError` from the payment score. -/
def update_borrower_traffic_light (pays : List PaymentRow)
    (comms : List CommRow) (notes : Option String) (b : Option BorrowerRec) :
    Option ((Bool × Option String × Option Nat) × Option BorrowerRec) :=
  match calculate_traffic_light_status pays comms with
  | none => none
  | some (status, score, breakdown) =>
    match b with
    | none => some ((false, none, none), none)
    | some borrower =>
      let old_status := borrower.traffic_light_status
      let status_note := baseStatusNote breakdown notes
      let status_note :=
        if old_status ≠ status then
          "Changed from " ++ old_status ++ " to " ++ status ++ ". " ++ status_note
        else status_note
      some ((true, some status, some score),
        some { traffic_light_status := status,
               visibility_score := score,
               status_notes := some status_note })

/-- One operational protocol dictionary from `get_borrower_protocol`;
the float `loan_increase_max` is carried exactly in `ℚ`. -/
structure Protocol where
  grace_period_days : Nat
  first_contact : String
  tone : String
  loan_increase_max : ℚ
  meeting_frequency : String
deriving Repr, DecidableEq

/-- Dictionary `protocols['GREEN']`. -/
def greenProtocol : Protocol :=
  ⟨7, "TEXT", "How can we help?", 3 / 2, "QUARTERLY"⟩

/-- Dictionary `protocols['YELLOW']`. -/
def yellowProtocol : Protocol :=
  ⟨3, "CALL", "Friendly check-in, standard support", 6 / 5, "MONTHLY"⟩

/-- Dictionary `protocols['RED']`. -/
def redProtocol : Protocol :=
  ⟨1, "VISIT", "We want to understand and help", 4 / 5, "WEEKLY"⟩

/-- Function `get_borrower_protocol` (db.py lines 501-533): `None` for a missing
borrower, else `protocols.get(status, protocols['YELLOW'])`. -/
def get_borrower_protocol (b : Option BorrowerRec) : Option Protocol :=
  match b with
  | none => none
  | some borrower =>
    some (if borrower.traffic_light_status = "GREEN" then greenProtocol
          else if borrower.traffic_light_status = "YELLOW" then yellowProtocol
          else if borrower.traffic_light_status = "RED" then redProtocol
          else yellowProtocol)

/-- What a login request handler does, observably: show a flash message
on the form, or establish the session and redirect to the dashboard
(the web2py redirect-by-exception is modelled as normal control flow). -/
inductive LoginResult where
  | flash : String → LoginResult
  | success : LoginResult
deriving Repr, DecidableEq

/-- An account row as the login handlers read it: just the nullable
`password_hash` column. -/
structure AccountRec where
  password_hash : Option String
deriving Repr, DecidableEq

/-- Python truthiness of the nullable string `user.password_hash`. -/
def hashTruthy (o : Option String) : Bool :=
  match o with
  | some s => s ≠ ""
  | none => false

/-- The password-comparison step: `bcrypt.checkpw` either returns a
boolean or raises (the `Except.error` carries the exception text). -/
abbrev CheckPw := Except String Bool

/-- Core of `login` in controllers/responsible.py (lines 57-108): the
`try`/`except Exception` around the bcrypt comparison; the result is
`Except`-valued so that an uncaught exception could be reported, and the
handler never does so. -/
def responsible_login (user : Option AccountRec) (checkpw : CheckPw) :
    Except String LoginResult :=
  match user with
  | some u =>
    if hashTruthy u.password_hash then
      match checkpw with
      | .ok true => .ok .success
      | .ok false => .ok (.flash "Invalid username or password")
      | .error _ => .ok (.flash "Login error. Please contact administrator.")
    else .ok (.flash "Invalid username or password")
  | none => .ok (.flash "Invalid username or password")

/-- Core of `login` in controllers/mfi.py (lines 14-61): same structure
as the responsible handler, same messages. -/
def mfi_login (user : Option AccountRec) (checkpw : CheckPw) :
    Except String LoginResult :=
  match user with
  | some u =>
    if hashTruthy u.password_hash then
      match checkpw with
      | .ok true => .ok .success
      | .ok false => .ok (.flash "Invalid username or password")
      | .error _ => .ok (.flash "Login error. Please contact administrator.")
    else .ok (.flash "Invalid username or password")
  | none => .ok (.flash "Invalid username or password")

/-- Core of `login` in controllers/b2c.py (lines 23-70): same structure,
but the exception branch flashes "Please contact your MFI." instead. -/
def b2c_login (borrower : Option AccountRec) (checkpw : CheckPw) :
    Except String LoginResult :=
  match borrower with
  | some u =>
    if hashTruthy u.password_hash then
      match checkpw with
      | .ok true => .ok .success
      | .ok false => .ok (.flash "Invalid username or password")
      | .error _ => .ok (.flash "Login error. Please contact your MFI.")
    else .ok (.flash "Invalid username or password")
  | none => .ok (.flash "Invalid username or password")

/-- The example payment history of the spec:
`days_late` values `[-2, 0, 1, 0, -1, 0]`. -/
def examplePayments : List PaymentRow :=
  [⟨some (-2)⟩, ⟨some 0⟩, ⟨some 1⟩, ⟨some 0⟩, ⟨some (-1)⟩, ⟨some 0⟩]

/-- A payment history of exactly three identical, positive (late)
`days_late` values: zero variance, yet fewer than 4 selected rows. -/
def threeLatePayments : List PaymentRow :=
  [⟨some 5⟩, ⟨some 5⟩, ⟨some 5⟩]

/-- A payment history of four identical, positive (late) `days_late`
values. -/
def fourLatePayments : List PaymentRow :=
  [⟨some 5⟩, ⟨some 5⟩, ⟨some 5⟩, ⟨some 5⟩]

/-- The communication rows for the C4 witness: five MFI-initiated
contacts, four answered within 48 hours. -/
def exampleComms : List CommRow :=
  [⟨"MFI", some 10, false, true⟩, ⟨"MFI", some 20, false, true⟩,
   ⟨"MFI", some 30, false, true⟩, ⟨"MFI", some 49, false, false⟩,
   ⟨"MFI", some 40, false, true⟩]

/-- The proactivity score as claim C5 words it (for comparison with the
code): only *borrower-initiated* proactive communications in the
trailing 90 days are counted. -/
def claimed_proactivity_score (rows : List CommRow) : Nat :=
  let proactive := rows.countP (fun c =>
    decide (c.initiated_by = "BORROWER") && c.is_proactive && c.in_last_90_days)
  if 2 ≤ proactive then 2
  else if 1 ≤ proactive then 1
  else if 2 ≤ borrowerCount90 rows then 1 else 0

/-- The borrower record for the C7 witness, stored status YELLOW. -/
def demoBorrower : BorrowerRec := ⟨"YELLOW", 0, none⟩

/-- Record `demoBorrower` after a first status update on empty payment and
communication data (payment 1, communication 1, proactivity 0 → RED). -/
def demoUpdatedBorrower : BorrowerRec :=
  ⟨"RED", 2, some ("Changed from YELLOW to RED. Score breakdown: " ++
    "Payment=1, Communication=1, Proactivity=0 (Total: 2/7)")⟩

/-! ## Claims -/

/-- Claim C2. For every participant with fewer than 3 payment records on
file, `calculate_payment_score` returns the neutral score 1, regardless
of the contents of those records (even a null `days_late` is never
examined). -/
theorem payment_score_neutral_when_few_records (rows : List PaymentRow)
    (h : rows.length < 3) : calculate_payment_score rows = some 1 := by
  have hlen : (rows.take 6).length < 3 := by
    rw [List.length_take]; omega
  simp only [calculate_payment_score, if_pos hlen]

/-- Witness for C2: two payment records, one of them with a null
`days_late`, still give the neutral score 1. -/
theorem payment_score_neutral_when_few_records_witness :
    ([⟨some 99⟩, ⟨none⟩] : List PaymentRow).length < 3 ∧
    calculate_payment_score [⟨some 99⟩, ⟨none⟩] = some 1 :=
  ⟨by decide, payment_score_neutral_when_few_records [⟨some 99⟩, ⟨none⟩] (by decide)⟩

/-- Claim C1. For every participant with at least 3 payment records, when
the on-time count over the examined (last up to 6) payments is defined,
the payment score follows the policy table: ≥5 on-time, or ≥4 on-time
with a consistent pattern → 3; else ≥4 on-time → 2; else ≥2 on-time or a
consistent pattern → 1; else 0.  Moreover the example history with
`days_late` values `[-2, 0, 1, 0, -1, 0]` has 5 on-time payments and
payment score 3. -/
theorem payment_score_follows_policy_table :
    (∀ (rows : List PaymentRow) (n : Nat), 3 ≤ rows.length → onTimeCount (rows.take 6) = some n →
      calculate_payment_score rows =
        some (if 5 ≤ n ∨ (4 ≤ n ∧ isConsistentPattern (rows.take 6)) then 3
              else if 4 ≤ n then 2
              else if 2 ≤ n ∨ isConsistentPattern (rows.take 6) then 1
              else 0)) ∧
    onTimeCount (examplePayments.take 6) = some 5 ∧
    calculate_payment_score examplePayments = some 3 := by
  refine ⟨fun rows n h3 hn => ?_, by decide, by decide⟩
  have hlen : ¬ (rows.take 6).length < 3 := by
    rw [List.length_take]; omega
  simp only [calculate_payment_score, if_neg hlen, hn]

/-- Witness for C1: the policy table instantiated on the example payment
history, with its hypotheses discharged by evaluation. -/
theorem payment_score_follows_policy_table_witness :
    3 ≤ examplePayments.length ∧
    onTimeCount (examplePayments.take 6) = some 5 ∧
    calculate_payment_score examplePayments =
      some (if 5 ≤ 5 ∨ (4 ≤ 5 ∧ isConsistentPattern (examplePayments.take 6)) then 3
            else if 4 ≤ 5 then 2
            else if 2 ≤ 5 ∨ isConsistentPattern (examplePayments.take 6) then 1
            else 0) :=
  ⟨by decide, by decide,
    payment_score_follows_policy_table.1 examplePayments 5 (by decide) (by decide)⟩

/-- Claim C3, counterexample. Three payments with identical positive
`days_late` (all 5 days late): the variance of days-late over the
examined records is 0, below the threshold 4, yet the code sets
`is_consistent_pattern = False` (it only checks the pattern when at
least 4 payments were selected), and the payment score is 0 — not the 1
the claimed consistent-pattern rule would give. -/
theorem consistent_pattern_three_records_cex :
    delayVariance (delaysOf (threeLatePayments.take 6)) < 4 ∧
    isConsistentPattern (threeLatePayments.take 6) = false ∧
    calculate_payment_score threeLatePayments = some 0 := by
  refine ⟨?_, by decide, by decide⟩
  norm_num [delayVariance, delaysOf, avgDelay, threeLatePayments, List.sum,
    List.filterMap_cons, List.filterMap_nil]

/-- Claim C3, amended. The consistent-pattern flag is computed only when
at least 4 payments are examined; in that case it holds exactly when
some `days_late` is non-null and the variance of the non-null
`days_late` values is below the fixed threshold 4 — a consistently late
history included.  With fewer than 4 examined payments the flag is
always false.  Four identical positive `days_late` values are a
consistent pattern and (with 0 on-time payments) still score 1. -/
theorem consistent_pattern_iff_low_variance :
    (∀ rows : List PaymentRow, 4 ≤ (rows.take 6).length →
      (isConsistentPattern (rows.take 6) = true ↔
        delaysOf (rows.take 6) ≠ [] ∧
          delayVariance (delaysOf (rows.take 6)) < 4)) ∧
    (∀ rows : List PaymentRow, (rows.take 6).length < 4 →
      isConsistentPattern (rows.take 6) = false) ∧
    isConsistentPattern (fourLatePayments.take 6) = true ∧
    calculate_payment_score fourLatePayments = some 1 := by
  have hfour : isConsistentPattern (fourLatePayments.take 6) = true := by
    have hvar : delayVariance (delaysOf (fourLatePayments.take 6)) < 4 := by
      norm_num [delayVariance, delaysOf, avgDelay, fourLatePayments, List.sum,
        List.filterMap_cons, List.filterMap_nil]
    simp only [isConsistentPattern]
    rw [if_pos (by decide)]
    rw [if_neg (by decide)]
    simpa using hvar
  refine ⟨fun rows h4 => ?_, fun rows h4 => ?_, hfour, ?_⟩
  · simp only [isConsistentPattern, if_pos h4]
    rcases hd : (delaysOf (rows.take 6)).isEmpty with _ | _
    · have hne : delaysOf (rows.take 6) ≠ [] := by
        simpa using List.isEmpty_eq_false.mp hd
      simp [hne]
    · have hnil : delaysOf (rows.take 6) = [] := List.isEmpty_iff.mp hd
      simp [hnil]
  · simp only [isConsistentPattern]
    rw [if_neg (by omega)]
  · have hlen : ¬ (fourLatePayments.take 6).length < 3 := by decide
    have hot : onTimeCount (fourLatePayments.take 6) = some 0 := by decide
    simp only [calculate_payment_score, if_neg hlen, hot, hfour]
    norm_num

/-- Witness for the amended C3: the variance criterion instantiated on
the four-identical-late-payments history. -/
theorem consistent_pattern_iff_low_variance_witness :
    4 ≤ (fourLatePayments.take 6).length ∧
    (isConsistentPattern (fourLatePayments.take 6) = true ↔
      delaysOf (fourLatePayments.take 6) ≠ [] ∧
        delayVariance (delaysOf (fourLatePayments.take 6)) < 4) :=
  ⟨by decide, consistent_pattern_iff_low_variance.1 fourLatePayments (by decide)⟩

/-- Claim C8. The claimed absence of error paths fails: a participant with
3 payment records one of which has a null `days_late` makes
`calculate_payment_score` evaluate `None <= 0`, a `TypeError` in
Python 3 (modelled as `none`), which propagates into
`calculate_traffic_light_status` — no neutral fallback is applied. -/
theorem payment_score_error_on_null_days_late :
    calculate_payment_score [⟨some 0⟩, ⟨none⟩, ⟨some 0⟩] = none ∧
    calculate_traffic_light_status [⟨some 0⟩, ⟨none⟩, ⟨some 0⟩] [] = none := by
  decide

/-- Any payment score that is returned is at most 3. -/
lemma payment_score_le_three (rows : List PaymentRow) (p : Nat)
    (h : calculate_payment_score rows = some p) : p ≤ 3 := by
  by_cases hlen : (rows.take 6).length < 3
  · simp only [calculate_payment_score, if_pos hlen, Option.some.injEq] at h
    omega
  · simp only [calculate_payment_score, if_neg hlen] at h
    cases hot : onTimeCount (rows.take 6) with
    | none =>
      simp only [hot] at h
      exact Option.noConfusion h
    | some n =>
      simp only [hot, Option.some.injEq] at h
      subst h
      split
      · omega
      · split
        · omega
        · split <;> omega

/-- The communication score is at most 2. -/
lemma communication_score_le_two (rows : List CommRow) :
    calculate_communication_score rows ≤ 2 := by
  simp only [calculate_communication_score]
  split
  · omega
  · split
    · omega
    · split <;> omega

/-- The proactivity score is at most 2. -/
lemma proactivity_score_le_two (rows : List CommRow) :
    calculate_proactivity_score rows ≤ 2 := by
  simp only [calculate_proactivity_score]
  split
  · omega
  · split
    · omega
    · split <;> omega

/-- Claim C4. The communication score depends only on the last 5
MFI-initiated contacts; with none of them it is the neutral 1, and
otherwise it is 2 when the answered-within-48-hours fraction is at
least 0.8, 1 when the fraction is at least 0.5, and 0 otherwise. -/
theorem communication_score_last5_policy :
    (∀ rows rows' : List CommRow, mfiComms rows = mfiComms rows' →
      calculate_communication_score rows = calculate_communication_score rows') ∧
    (∀ rows : List CommRow, mfiComms rows = [] →
      calculate_communication_score rows = 1) ∧
    (∀ rows : List CommRow, mfiComms rows ≠ [] →
      calculate_communication_score rows =
        if (8 : ℚ) / 10 ≤
            (within48Count (mfiComms rows) : ℚ) / ((mfiComms rows).length : ℚ)
        then 2
        else if (1 : ℚ) / 2 ≤
            (within48Count (mfiComms rows) : ℚ) / ((mfiComms rows).length : ℚ)
        then 1
        else 0) := by
  refine ⟨fun rows rows' h => ?_, fun rows h => ?_, fun rows h => ?_⟩
  · simp only [calculate_communication_score, h]
  · simp [calculate_communication_score, h]
  · have hlen : ¬ (mfiComms rows).length = 0 := fun hh =>
      h (List.length_eq_zero.mp hh)
    simp only [calculate_communication_score, if_neg hlen]

/-- Witness for C4: the non-neutral branch instantiated on
`exampleComms`. -/
theorem communication_score_last5_policy_witness :
    mfiComms exampleComms ≠ [] ∧
    calculate_communication_score exampleComms =
      (if (8 : ℚ) / 10 ≤
          (within48Count (mfiComms exampleComms) : ℚ) /
            ((mfiComms exampleComms).length : ℚ)
       then 2
       else if (1 : ℚ) / 2 ≤
          (within48Count (mfiComms exampleComms) : ℚ) /
            ((mfiComms exampleComms).length : ℚ)
       then 1
       else 0) :=
  ⟨by decide, communication_score_last5_policy.2.2 exampleComms (by decide)⟩

/-- Claim C5, counterexample. A single MFI-initiated communication flagged
proactive inside the 90-day window: the proactive-count query has no
initiator filter, so the code scores 1, while the claim's
borrower-initiated reading (0 borrower proactive rows, 0 borrower rows)
scores 0. -/
theorem proactivity_counts_mfi_rows_cex :
    calculate_proactivity_score [⟨"MFI", none, true, true⟩] = 1 ∧
    claimed_proactivity_score [⟨"MFI", none, true, true⟩] = 0 ∧
    borrowerCount90 [⟨"MFI", none, true, true⟩] = 0 := by
  decide

/-- Claim C5, amended. The proactivity score counts the communications
flagged proactive in the trailing 90 days *regardless of initiator*: a
count of at least 2 yields 2 and a count of exactly 1 yields 1; when the
count is 0 the score is 1 if at least 2 borrower-initiated
communications exist in the trailing 90 days and 0 otherwise. -/
theorem proactivity_score_policy :
    (∀ rows : List CommRow, 2 ≤ proactiveCount90 rows →
      calculate_proactivity_score rows = 2) ∧
    (∀ rows : List CommRow, proactiveCount90 rows = 1 →
      calculate_proactivity_score rows = 1) ∧
    (∀ rows : List CommRow, proactiveCount90 rows = 0 →
      calculate_proactivity_score rows =
        if 2 ≤ borrowerCount90 rows then 1 else 0) := by
  refine ⟨fun rows h => ?_, fun rows h => ?_, fun rows h => ?_⟩
  · simp only [calculate_proactivity_score, if_pos h]
  · simp only [calculate_proactivity_score]
    rw [if_neg (by omega), if_pos (by omega)]
  · simp only [calculate_proactivity_score]
    rw [if_neg (by omega), if_neg (by omega)]

/-- Witness for the amended C5: two proactive communications in the
window give score 2. -/
theorem proactivity_score_policy_witness :
    2 ≤ proactiveCount90
        [⟨"BORROWER", none, true, true⟩, ⟨"MFI", none, true, true⟩] ∧
    calculate_proactivity_score
        [⟨"BORROWER", none, true, true⟩, ⟨"MFI", none, true, true⟩] = 2 :=
  ⟨by decide, proactivity_score_policy.1 _ (by decide)⟩

/-- Claim C6. Whenever `calculate_traffic_light_status` returns, the total
score is the sum of the three sub-scores and lies in `[0, 7]`, and the
status thresholds are mutually exclusive and exhaustive:
GREEN ↔ total ≥ 6, YELLOW ↔ 4 ≤ total < 6, RED ↔ total < 4. -/
theorem traffic_light_total_bounds (pays : List PaymentRow)
    (comms : List CommRow) (st : String) (total : Nat) (bd : Breakdown)
    (h : calculate_traffic_light_status pays comms = some (st, total, bd)) :
    (∃ p, calculate_payment_score pays = some p ∧
      total = p + calculate_communication_score comms +
        calculate_proactivity_score comms) ∧
    total ≤ 7 ∧
    (st = "GREEN" ↔ 6 ≤ total) ∧
    (st = "YELLOW" ↔ 4 ≤ total ∧ total < 6) ∧
    (st = "RED" ↔ total < 4) := by
  cases hp : calculate_payment_score pays with
  | none =>
    simp only [calculate_traffic_light_status, hp] at h
    exact Option.noConfusion h
  | some p =>
    simp only [calculate_traffic_light_status, hp, Option.some.injEq,
      Prod.mk.injEq] at h
    obtain ⟨hst, htot, -⟩ := h
    have hple := payment_score_le_three pays p hp
    have hcle := communication_score_le_two comms
    have hpale := proactivity_score_le_two comms
    subst htot
    refine ⟨⟨p, rfl, rfl⟩, by omega, ?_, ?_, ?_⟩ <;> rw [← hst] <;> clear hst
    · constructor
      · intro hg
        by_contra h6
        rw [if_neg h6] at hg
        split at hg <;> exact absurd hg.symm (by decide)
      · intro h6
        rw [if_pos h6]
    · constructor
      · intro hy
        by_cases h6 : 6 ≤ p + calculate_communication_score comms +
            calculate_proactivity_score comms
        · rw [if_pos h6] at hy
          exact absurd hy.symm (by decide)
        · rw [if_neg h6] at hy
          by_cases h4 : 4 ≤ p + calculate_communication_score comms +
              calculate_proactivity_score comms
          · omega
          · rw [if_neg h4] at hy
            exact absurd hy.symm (by decide)
      · intro ⟨h4, h6⟩
        rw [if_neg (by omega), if_pos h4]
    · constructor
      · intro hr
        by_cases h6 : 6 ≤ p + calculate_communication_score comms +
            calculate_proactivity_score comms
        · rw [if_pos h6] at hr
          exact absurd hr.symm (by decide)
        · rw [if_neg h6] at hr
          by_cases h4 : 4 ≤ p + calculate_communication_score comms +
              calculate_proactivity_score comms
          · rw [if_pos h4] at hr
            exact absurd hr.symm (by decide)
          · omega
      · intro h4
        rw [if_neg (by omega), if_neg (by omega)]

/-- Witness for C6: the example payment history with no communications
gives payment 3, communication 1, proactivity 0 — total 4, YELLOW. -/
theorem traffic_light_total_bounds_witness :
    calculate_traffic_light_status examplePayments [] =
      some ("YELLOW", 4, ⟨3, 1, 0, 4⟩) ∧
    ((∃ p, calculate_payment_score examplePayments = some p ∧
        4 = p + calculate_communication_score [] +
          calculate_proactivity_score []) ∧
      4 ≤ 7 ∧
      ("YELLOW" = "GREEN" ↔ 6 ≤ 4) ∧
      ("YELLOW" = "YELLOW" ↔ 4 ≤ 4 ∧ 4 < 6) ∧
      ("YELLOW" = "RED" ↔ 4 < 4)) :=
  ⟨by decide,
    traffic_light_total_bounds examplePayments [] "YELLOW" 4 ⟨3, 1, 0, 4⟩ (by decide)⟩

/-- Appending on the right keeps a string's first character. -/
lemma string_head_append (x y : String) (c : Char)
    (hx : x.data.head? = some c) : (x ++ y).data.head? = some c := by
  rw [String.data_append]
  cases hd : x.data with
  | nil => rw [hd] at hx; exact Option.noConfusion hx
  | cons a l =>
    rw [hd] at hx
    simpa using hx

/-- The breakdown note always starts with the character `S`. -/
lemma scoreBreakdownNote_head (bd : Breakdown) :
    (scoreBreakdownNote bd).data.head? = some 'S' := by
  unfold scoreBreakdownNote
  repeat' apply string_head_append
  rfl

/-- So does the note with the optional caller notes appended. -/
lemma baseStatusNote_head (bd : Breakdown) (notes : Option String) :
    (baseStatusNote bd notes).data.head? = some 'S' := by
  cases notes with
  | none => exact scoreBreakdownNote_head bd
  | some n =>
    exact string_head_append _ _ _
      (string_head_append _ _ _ (scoreBreakdownNote_head bd))

/-- A string starting with `S` differs from one starting with `C`. -/
lemma head_S_ne_head_C (x z : String) (hx : x.data.head? = some 'S')
    (hz : z.data.head? = some 'C') : x ≠ z := by
  intro h
  rw [h, hz] at hx
  exact absurd hx (by decide)

/-- Claim C7. Re-running `update_borrower_traffic_light` on the same
payment and communication data is idempotent: the second run stores the
same status and the same score as the first, and the stored status note
begins with the `"Changed from X to Y. "` text exactly when the newly
computed status differs from the status stored on the record before the
run. -/
theorem update_traffic_light_idempotent
    (pays : List PaymentRow) (comms : List CommRow) (notes : Option String)
    (b : BorrowerRec) (res : Bool) (st : Option String) (sc : Option Nat)
    (b1 : BorrowerRec)
    (h : update_borrower_traffic_light pays comms notes (some b) =
      some ((res, st, sc), some b1)) :
    (∃ b2 : BorrowerRec,
      update_borrower_traffic_light pays comms notes (some b1) =
        some ((true, some b1.traffic_light_status, some b1.visibility_score),
          some b2) ∧
      b2.traffic_light_status = b1.traffic_light_status ∧
      b2.visibility_score = b1.visibility_score) ∧
    ((∃ t, b1.status_notes =
        some ("Changed from " ++ b.traffic_light_status ++ " to " ++
          b1.traffic_light_status ++ ". " ++ t)) ↔
      b.traffic_light_status ≠ b1.traffic_light_status) := by
  cases hc : calculate_traffic_light_status pays comms with
  | none =>
    simp only [update_borrower_traffic_light, hc] at h
    exact Option.noConfusion h
  | some r =>
    obtain ⟨status, score, bd⟩ := r
    simp only [update_borrower_traffic_light, hc, Option.some.injEq,
      Prod.mk.injEq] at h
    obtain ⟨⟨-, -, -⟩, hb1⟩ := h
    have hst1 : b1.traffic_light_status = status := by rw [← hb1]
    have hsc1 : b1.visibility_score = score := by rw [← hb1]
    have hnt1 : b1.status_notes =
        some (if b.traffic_light_status ≠ status then
          "Changed from " ++ b.traffic_light_status ++ " to " ++ status ++
            ". " ++ baseStatusNote bd notes
        else baseStatusNote bd notes) := by rw [← hb1]
    constructor
    · refine ⟨⟨status, score, some (baseStatusNote bd notes)⟩, ?_, hst1.symm,
        hsc1.symm⟩
      rw [hst1, hsc1]
      simp only [update_borrower_traffic_light, hc]
      rw [if_neg (fun hne => hne hst1)]
    · rw [hnt1, hst1]
      constructor
      · rintro ⟨t, ht⟩
        simp only [Option.some.injEq] at ht
        by_contra heq
        rw [if_neg (fun hne => hne heq)] at ht
        refine absurd ht (head_S_ne_head_C _ _ (baseStatusNote_head bd notes) ?_)
        repeat' apply string_head_append
        rfl
      · intro hne
        refine ⟨baseStatusNote bd notes, ?_⟩
        rw [if_pos hne]

/-- Witness for C7: idempotence instantiated after a first run that
changed the status from YELLOW to RED. -/
theorem update_traffic_light_idempotent_witness :
    update_borrower_traffic_light [] [] none (some demoBorrower) =
      some ((true, some "RED", some 2), some demoUpdatedBorrower) ∧
    ((∃ b2 : BorrowerRec,
        update_borrower_traffic_light [] [] none (some demoUpdatedBorrower) =
          some ((true, some demoUpdatedBorrower.traffic_light_status,
            some demoUpdatedBorrower.visibility_score), some b2) ∧
        b2.traffic_light_status = demoUpdatedBorrower.traffic_light_status ∧
        b2.visibility_score = demoUpdatedBorrower.visibility_score) ∧
      ((∃ t, demoUpdatedBorrower.status_notes =
          some ("Changed from " ++ demoBorrower.traffic_light_status ++
            " to " ++ demoUpdatedBorrower.traffic_light_status ++ ". " ++ t)) ↔
        demoBorrower.traffic_light_status ≠
          demoUpdatedBorrower.traffic_light_status)) :=
  ⟨by decide, update_traffic_light_idempotent [] [] none demoBorrower true
    (some "RED") (some 2) demoUpdatedBorrower (by decide)⟩

/-- Claim C9, counterexample. In the B2C login handler an exception during
`bcrypt.checkpw` is caught, but the flash message sent to the user is
"Login error. Please contact your MFI.", not the claimed generic
'contact administrator' message. -/
theorem b2c_login_flash_not_administrator_cex :
    b2c_login (some ⟨some "$2b$12$hash"⟩) (.error "bcrypt failure") =
      .ok (.flash "Login error. Please contact your MFI.") ∧
    ("Login error. Please contact your MFI." : String) ≠
      "Login error. Please contact administrator." :=
  ⟨rfl, by decide⟩

/-- Claim C9, amended. In every login handler an exception raised during
the password comparison is caught and turned into a login-error flash
message — "Login error. Please contact administrator." in the
responsible and MFI handlers, "Login error. Please contact your MFI."
in the B2C handler — and no handler propagates the exception (the
`Except` result is always `.ok`). -/
theorem login_exception_caught (u : AccountRec) (e : String)
    (h : hashTruthy u.password_hash = true) :
    responsible_login (some u) (.error e) =
      .ok (.flash "Login error. Please contact administrator.") ∧
    mfi_login (some u) (.error e) =
      .ok (.flash "Login error. Please contact administrator.") ∧
    b2c_login (some u) (.error e) =
      .ok (.flash "Login error. Please contact your MFI.") := by
  refine ⟨?_, ?_, ?_⟩
  · simp only [responsible_login]
    rw [if_pos h]
  · simp only [mfi_login]
    rw [if_pos h]
  · simp only [b2c_login]
    rw [if_pos h]

/-- Witness for the amended C9: a concrete account and exception text. -/
theorem login_exception_caught_witness :
    hashTruthy (AccountRec.mk (some "pw")).password_hash = true ∧
    (responsible_login (some ⟨some "pw"⟩) (.error "boom") =
        .ok (.flash "Login error. Please contact administrator.") ∧
      mfi_login (some ⟨some "pw"⟩) (.error "boom") =
        .ok (.flash "Login error. Please contact administrator.") ∧
      b2c_login (some ⟨some "pw"⟩) (.error "boom") =
        .ok (.flash "Login error. Please contact your MFI.")) :=
  ⟨by decide, login_exception_caught ⟨some "pw"⟩ "boom" (by decide)⟩

/-- Claim C10. `get_borrower_protocol` returns `none` exactly for a
missing borrower; for every existing borrower it returns one of the
three fixed protocol dictionaries — the YELLOW fallback whenever the
stored status is none of GREEN/YELLOW/RED — so `loan_increase_max` is
always 1.5, 1.2 or 0.8. -/
theorem borrower_protocol_classification :
    (get_borrower_protocol none = none) ∧
    (∀ (b : BorrowerRec) (p : Protocol),
      get_borrower_protocol (some b) = some p →
      (p = greenProtocol ∨ p = yellowProtocol ∨ p = redProtocol) ∧
      (p.loan_increase_max = 3 / 2 ∨ p.loan_increase_max = 6 / 5 ∨
        p.loan_increase_max = 4 / 5)) ∧
    (∀ b : BorrowerRec, b.traffic_light_status ≠ "GREEN" →
      b.traffic_light_status ≠ "YELLOW" → b.traffic_light_status ≠ "RED" →
      get_borrower_protocol (some b) = some yellowProtocol) ∧
    (∀ b : BorrowerRec, ∃ p, get_borrower_protocol (some b) = some p) := by
  refine ⟨rfl, fun b p h => ?_, fun b h1 h2 h3 => ?_, fun b => ⟨_, rfl⟩⟩
  · simp only [get_borrower_protocol, Option.some.injEq] at h
    split at h
    · subst h
      exact ⟨Or.inl rfl, Or.inl rfl⟩
    · split at h
      · subst h
        exact ⟨Or.inr (Or.inl rfl), Or.inr (Or.inl rfl)⟩
      · split at h
        · subst h
          exact ⟨Or.inr (Or.inr rfl), Or.inr (Or.inr rfl)⟩
        · subst h
          exact ⟨Or.inr (Or.inl rfl), Or.inr (Or.inl rfl)⟩
  · simp only [get_borrower_protocol]
    rw [if_neg h1, if_neg h2, if_neg h3]

/-- Witness for C10: a borrower whose stored status is the invalid
"PURPLE" falls back to the YELLOW protocol, whose loan increase cap
is 1.2. -/
theorem borrower_protocol_classification_witness :
    get_borrower_protocol (some ⟨"PURPLE", 0, none⟩) = some yellowProtocol ∧
    ((yellowProtocol = greenProtocol ∨ yellowProtocol = yellowProtocol ∨
        yellowProtocol = redProtocol) ∧
      (yellowProtocol.loan_increase_max = 3 / 2 ∨
        yellowProtocol.loan_increase_max = 6 / 5 ∨
        yellowProtocol.loan_increase_max = 4 / 5)) :=
  ⟨borrower_protocol_classification.2.2.1 ⟨"PURPLE", 0, none⟩ (by decide)
      (by decide) (by decide),
    borrower_protocol_classification.2.1 ⟨"PURPLE", 0, none⟩ yellowProtocol
      (borrower_protocol_classification.2.2.1 ⟨"PURPLE", 0, none⟩ (by decide)
        (by decide) (by decide))⟩
